import Mathlib

/-!
Verification development for the DIGIL SSH connectivity checker.

Shallow embedding of the reachability-and-classification pipeline:
  - connectivity_checker.py : ConnectionStatus, DeviceType, DeviceInfo,
    detect_device_type, normalize_ip, DeviceChecker.check_ping,
    MultiThreadChecker.check_devices
  - malfunction_classifier.py : MalfunctionClassifier.classify
  - api_client.py : DigilAPIClient._parse_diagnostics, _decode_timestamp
  - mongodb_checker.py : MongoCheckResult, MongoDBChecker.check_device
  - main.py : the per-device application of API / MongoDB results

Python strings are modelled as Lean String (with List Char cores where
recursion is easier); Python None-able values as Option; machine time as
Nat seconds; numeric timestamps as Int.
-/

/-- The ConnectionStatus enum of connectivity_checker.py. -/
inductive ConnectionStatus
  | PENDING
  | TESTING
  | BRIDGE_UNREACHABLE
  | PING_OK
  | PING_FAILED
  | SSH_PORT_OPEN
  | SSH_PORT_CLOSED
  | SSH_TIMEOUT
  | ERROR
  | VPN_ERROR
deriving DecidableEq, Repr

/-- The DeviceType enum of connectivity_checker.py (device role). -/
inductive DeviceType
  | MASTER
  | SLAVE
  | UNKNOWN
deriving DecidableEq, Repr

/-- The DeviceInfo dataclass of connectivity_checker.py, together with the
attributes attached dynamically by main.py during API / MongoDB fusion
(`battery_ok`, `door_open`, `lte_ok`, `mongodb_has_data`, ...).  A Python
attribute that may be absent or None is an Option field defaulting to none. -/
structure DeviceInfo where
  device_id : String := ""
  ip_address : String := ""
  linea : String := ""
  sostegno : String := ""
  fornitore : String := ""
  device_type : DeviceType := .UNKNOWN
  ping_status : ConnectionStatus := .PENDING
  ssh_status : ConnectionStatus := .PENDING
  ping_time_ms : Option Nat := none
  error_message : String := ""
  test_timestamp : Option String := none
  battery_ok : Option Bool := none
  door_open : Option Bool := none
  lte_ok : Option Bool := none
  soc_percent : Option Int := none
  soh_percent : Option Int := none
  lte_signal_dbm : Option Int := none
  channel : Option String := none
  api_error : Option String := none
  mongodb_has_data : Option Bool := none
  mongodb_checked : Option Bool := none
  mongodb_last_timestamp : Option Int := none
  mongodb_error : Option String := none
deriving DecidableEq, Repr

/-- `startsWithL pre l` is Python `l.startswith(pre)` on char lists. -/
def startsWithL : List Char → List Char → Bool
  | [], _ => true
  | _ :: _, [] => false
  | a :: as, b :: bs => a == b && startsWithL as bs

/-- `containsSub sub l` is the Python substring test `sub in l`. -/
def containsSub (sub : List Char) : List Char → Bool
  | [] => startsWithL sub []
  | a :: t => startsWithL sub (a :: t) || containsSub sub t

/-- Python str.split(c) on char lists: split at every occurrence of the
separator, preserving empty fields. -/
def splitOnChar (c : Char) : List Char → List (List Char)
  | [] => [[]]
  | a :: t =>
    match splitOnChar c t with
    | [] => [[]]
    | h :: r => if a = c then [] :: h :: r else (a :: h) :: r

/-- detect_device_type of connectivity_checker.py: inspect the fourth
colon-delimited field ("15" → MASTER, "16" → SLAVE), otherwise fall back to
a substring search over the whole identifier. -/
def detect_device_type (device_id : String) : DeviceType :=
  let parts := splitOnChar ':' device_id.data
  if 4 ≤ parts.length ∧ parts.getD 3 [] = "15".data then .MASTER
  else if 4 ≤ parts.length ∧ parts.getD 3 [] = "16".data then .SLAVE
  else if containsSub "15".data device_id.data = true ∧
          containsSub "16".data device_id.data = false then .MASTER
  else if containsSub "16".data device_id.data = true then .SLAVE
  else .UNKNOWN

/-- Python whitespace for str.strip(): space, \t, \n, \v, \f, \r. -/
def isPySpace (c : Char) : Bool :=
  if c = ' ' then true
  else if c = '\t' then true
  else if c = '\n' then true
  else if c = '\x0b' then true
  else if c = '\x0c' then true
  else if c = '\r' then true
  else false

/-- Python str.strip(): remove leading and trailing whitespace (modelled as
a right strip followed by a left strip, which is the same set of chars). -/
def pyStrip (l : List Char) : List Char :=
  ((l.reverse.dropWhile isPySpace).reverse).dropWhile isPySpace

/-- Python str.isdigit(): nonempty and all characters are digits
(ASCII digits in this model). -/
def isDigitL (l : List Char) : Bool :=
  !l.isEmpty && l.all Char.isDigit

/-- normalize_ip of connectivity_checker.py on the char-list core:
strip, pass strings with "." through, reconstruct long pure-digit strings
with the deployment's known prefixes, else pass through. -/
def normalize_ip_chars (ip_raw : List Char) : List Char :=
  let ip_str := pyStrip ip_raw
  if ip_str.contains '.' then ip_str
  else if isDigitL ip_str && decide (9 ≤ ip_str.length) then
    if startsWithL "10183224".data ip_str then
      "10.183.224.".data ++ ip_str.drop 8
    else if startsWithL "1018322".data ip_str then
      "10.183.22.".data ++ ip_str.drop 7
    else ip_str
  else ip_str

/-- normalize_ip of connectivity_checker.py. -/
def normalize_ip (s : String) : String :=
  String.mk (normalize_ip_chars s.data)

namespace MalfunctionClassifier

/-- MalfunctionClassifier._check_ssh: SSH OK iff the port check succeeded. -/
def check_ssh (device : DeviceInfo) : Bool :=
  device.ssh_status == ConnectionStatus.SSH_PORT_OPEN

/-- MalfunctionClassifier._check_ping: ping OK iff status is PING_OK. -/
def check_ping (device : DeviceInfo) : Bool :=
  device.ping_status == ConnectionStatus.PING_OK

/-- MalfunctionClassifier._build_connectivity_note: list the failed checks. -/
def build_connectivity_note (ping_ok ssh_ok : Bool) : String :=
  let issues :=
    (if !ping_ok then ["Ping KO"] else []) ++ (if !ssh_ok then ["SSH KO"] else [])
  String.intercalate ", " issues

/-- MalfunctionClassifier.classify: the ordered decision list of
malfunction_classifier.py, first matching rule wins.  Rule 4 of the source
returns for `mongodb_ok is False` and for `mongodb_ok is None` and falls
through when it is True (which rule 3 has already consumed); the condition
below reproduces that behaviour exactly. -/
def classify (device : DeviceInfo) : String × String :=
  let ssh_ok := check_ssh device
  let ping_ok := check_ping device
  let mongodb_ok := device.mongodb_has_data
  let lte_ok := device.lte_ok
  let battery_ok := device.battery_ok
  let door_open := device.door_open
  let connectivity_note := build_connectivity_note ping_ok ssh_ok
  if door_open = some true then ("Porta aperta", connectivity_note)
  else if battery_ok = some false then ("Allarme batteria", connectivity_note)
  else if mongodb_ok = some true then
    (if ping_ok = false ∨ ssh_ok = false then
      ("OK", if connectivity_note ≠ "" then
               "Non raggiungibile (" ++ connectivity_note ++ ")" else "")
     else ("OK", ""))
  else if (ping_ok = false ∧ ssh_ok = false) ∧
          (mongodb_ok = some false ∨ mongodb_ok = none) then
    ("Disconnesso", connectivity_note)
  else if lte_ok = some false ∧ mongodb_ok = some false then
    ("Disconnesso", connectivity_note)
  else if mongodb_ok = some false then
    (if ssh_ok = true ∨ ping_ok = true ∨ lte_ok = some true then
      ("Metriche assenti", connectivity_note)
     else ("Disconnesso", connectivity_note))
  else if ssh_ok = true then ("OK", "")
  else if lte_ok = some true then
    ("OK", if ping_ok = false ∨ ssh_ok = false then connectivity_note else "")
  else ("Non classificato", connectivity_note)

end MalfunctionClassifier

namespace DeviceChecker

/-- DeviceChecker.MASTER_PING_RETRY_TIMEOUT (seconds). -/
def MASTER_PING_RETRY_TIMEOUT : Nat := 300

/-- DeviceChecker.SLAVE_PING_RETRY_TIMEOUT (seconds). -/
def SLAVE_PING_RETRY_TIMEOUT : Nat := 1200

/-- DeviceChecker.PING_RETRY_INTERVAL (seconds between attempts). -/
def PING_RETRY_INTERVAL : Nat := 10

/-- DeviceChecker.SSH_RETRY_ATTEMPTS. -/
def SSH_RETRY_ATTEMPTS : Nat := 5

/-- DeviceChecker.SSH_RETRY_INTERVAL (seconds). -/
def SSH_RETRY_INTERVAL : Nat := 2

/-- Outcome of one check_ping_single call: its ConnectionStatus, the parsed
average round-trip time when the output was parseable, and the error text. -/
structure SingleResult where
  status : ConnectionStatus
  time : Option Nat := none
  err : String := ""
deriving DecidableEq, Repr

/-- What DeviceChecker.check_ping returns, together with the observable
retry behaviour: final status, carried ping time, number of attempts
issued, number of time.sleep calls performed, and the error message. -/
structure PingOutcome where
  status : ConnectionStatus
  time : Option Nat
  attempts : Nat
  sleeps : Nat
  msg : String
deriving DecidableEq, Repr

/-- The `while True` retry loop of DeviceChecker.check_ping.  `res n` is the
outcome of the n-th check_ping_single call and `dur n` the wall time that
call consumed; `elapsed` is the time measured at the top of the iteration
(before the attempt), exactly as the source measures it, so the budget
check after a failed attempt uses the pre-attempt elapsed time.  Each
non-terminal iteration sleeps PING_RETRY_INTERVAL seconds. -/
def pingLoop (maxR : Nat) (res : Nat → SingleResult) (dur : Nat → Nat)
    (attempt elapsed sleeps : Nat) : PingOutcome :=
  let a := attempt + 1
  let r := res a
  if h1 : r.status = ConnectionStatus.PING_OK then
    ⟨ConnectionStatus.PING_OK, r.time, a, sleeps, ""⟩
  else if h2 : maxR ≤ elapsed then
    ⟨ConnectionStatus.PING_FAILED, none, a, sleeps,
      "Ping fallito dopo " ++ toString a ++ " tentativi (" ++
        toString (maxR / 60) ++ " min). " ++ r.err⟩
  else
    pingLoop maxR res dur a (elapsed + dur a + PING_RETRY_INTERVAL) (sleeps + 1)
termination_by maxR - elapsed
decreasing_by simp [PING_RETRY_INTERVAL]; omega

/-- DeviceChecker.check_ping: role selects the retry budget (MASTER → 300 s,
anything else → 1200 s), then the retry loop starts from attempt 0 at
elapsed time 0. -/
def check_ping (device_type : DeviceType) (res : Nat → SingleResult)
    (dur : Nat → Nat) : PingOutcome :=
  let max_retry_seconds :=
    if device_type = DeviceType.MASTER then MASTER_PING_RETRY_TIMEOUT
    else SLAVE_PING_RETRY_TIMEOUT
  pingLoop max_retry_seconds res dur 0 0 0

/-- Wall time accumulated by the first k loop iterations: the durations of
attempts 1..k plus one PING_RETRY_INTERVAL sleep after each.  The elapsed
time measured at the top of attempt n is sumDur dur (n-1). -/
def sumDur (dur : Nat → Nat) : Nat → Nat
  | 0 => 0
  | k + 1 => sumDur dur k + dur (k + 1) + PING_RETRY_INTERVAL

end DeviceChecker

namespace MultiThreadChecker

/-- The bridge-failure branch of MultiThreadChecker.check_devices marks one
device: both status fields get the distinct VPN_ERROR value and the
connection error message is recorded. -/
def mark_bridge_fail (msg : String) (d : DeviceInfo) : DeviceInfo :=
  { d with ping_status := ConnectionStatus.VPN_ERROR,
           ssh_status := ConnectionStatus.VPN_ERROR,
           error_message := msg }

/-- Observable outcome of a check_devices run: the collected records, how
many times the completion callback fired, and how many per-device probe
commands were issued on the bridge. -/
structure BatchRunOutcome where
  results : List DeviceInfo
  completionCalls : Nat
  probeCommands : Nat
deriving DecidableEq, Repr

/-- The `if not success` branch of MultiThreadChecker.check_devices: when
the initial bridge connection fails, every device is appended to the
results marked with VPN_ERROR and the message, the completion callback is
invoked once, and the function returns before any DeviceChecker is
created, so no probe command is ever issued. -/
def check_devices_bridge_fail (devices : List DeviceInfo) (msg : String) :
    BatchRunOutcome :=
  { results := devices.map (mark_bridge_fail msg),
    completionCalls := 1,
    probeCommands := 0 }

/-- Worker / device lifecycle in the thread-pool branch of check_devices:
queued (future not yet picked up), running (worker passed its stop-flag
check and is executing full_check), skipped (worker started after the stop
flag was set and returned immediately), done (full_check finished, result
appended). -/
inductive WStatus
  | queued
  | running
  | skipped
  | done
deriving DecidableEq, Repr

/-- Scheduler events of one batch run: a worker picking up device i,
device i's full_check completing (result appended under the lock and the
"Completato" progress callback firing), and the stop flag being raised. -/
inductive BatchEvent
  | start (i : Nat)
  | finish (i : Nat)
  | cancel
deriving DecidableEq, Repr

/-- Observable state of the thread-pool branch of check_devices.
`resultsAtCancel` snapshots the results list at the moment the stop flag
is first raised (the K completed devices); `callbacksAfterCancel` counts
per-device completion callbacks fired after that moment. -/
structure BatchState where
  status : Nat → WStatus
  results : List Nat
  flagged : Bool := false
  resultsAtCancel : Option (List Nat) := none
  callbacksAfterCancel : Nat := 0
  completionCalls : Nat := 0

/-- Initial batch state: n devices queued, nothing collected. -/
def initBatch (_n : Nat) : BatchState :=
  { status := fun _ => WStatus.queued, results := [] }

/-- One scheduler step.  A starting worker first checks the stop flag (the
`if self._stop_flag.is_set(): return` guard) and is skipped if it is set;
a finishing worker appends its record and fires the per-device completion
callback regardless of the flag (threads are never killed; the executor
context manager waits for them); cancel sets the flag and snapshots the
results collected so far. -/
def stepBatch (s : BatchState) : BatchEvent → BatchState
  | .start i =>
    if s.status i = WStatus.queued then
      if s.flagged then
        { s with status := fun j => if j = i then WStatus.skipped else s.status j }
      else
        { s with status := fun j => if j = i then WStatus.running else s.status j }
    else s
  | .finish i =>
    if s.status i = WStatus.running then
      { s with status := fun j => if j = i then WStatus.done else s.status j,
               results := s.results ++ [i],
               callbacksAfterCancel :=
                 s.callbacksAfterCancel + (if s.flagged then 1 else 0) }
    else s
  | .cancel =>
    { s with flagged := true,
             resultsAtCancel :=
               match s.resultsAtCancel with
               | some r => some r
               | none => some s.results }

/-- A whole batch run over a schedule of events; after the pool drains,
check_devices always invokes the completion callback exactly once. -/
def runBatch (n : Nat) (evs : List BatchEvent) : BatchState :=
  let s := evs.foldl stepBatch (initBatch n)
  { s with completionCalls := s.completionCalls + 1 }

end MultiThreadChecker

namespace DigilAPIClient

/-- Zero-pad an integer to two digits (strftime %m %d %H %M %S). -/
def pad2 (n : Int) : String :=
  if n < 10 then "0" ++ toString n else toString n

/-- Zero-pad a year to four digits (strftime %Y). -/
def pad4 (n : Int) : String :=
  if n < 10 then "000" ++ toString n
  else if n < 100 then "00" ++ toString n
  else if n < 1000 then "0" ++ toString n
  else toString n

/-- strftime "%Y-%m-%d %H:%M:%S" on broken-down civil time. -/
def fmtDateTime (y m d h mi s : Int) : String :=
  pad4 y ++ "-" ++ pad2 m ++ "-" ++ pad2 d ++ " " ++
    pad2 h ++ ":" ++ pad2 mi ++ ":" ++ pad2 s

/-- Proleptic-Gregorian civil date from a day count relative to 1970-01-01
(the standard days-to-civil algorithm, which is what
datetime.fromtimestamp computes). -/
def civilFromDays (z0 : Int) : Int × Int × Int :=
  let z := z0 + 719468
  let era := Int.fdiv z 146097
  let doe := z - era * 146097
  let yoe := Int.fdiv (doe - Int.fdiv doe 1460 + Int.fdiv doe 36524 -
               Int.fdiv doe 146096) 365
  let y := yoe + era * 400
  let doy := doe - (365 * yoe + Int.fdiv yoe 4 - Int.fdiv yoe 100)
  let mp := Int.fdiv (5 * doy + 2) 153
  let d := doy - Int.fdiv (153 * mp + 2) 5 + 1
  let m := if mp < 10 then mp + 3 else mp - 9
  (if m ≤ 2 then y + 1 else y, m, d)

/-- Inverse day count from a proleptic-Gregorian civil date. -/
def daysFromCivil (y0 m d : Int) : Int :=
  let y := if m ≤ 2 then y0 - 1 else y0
  let era := Int.fdiv y 400
  let yoe := y - era * 400
  let mp := if 2 < m then m - 3 else m + 9
  let doy := Int.fdiv (153 * mp + 2) 5 + d - 1
  let doe := yoe * 365 + Int.fdiv yoe 4 - Int.fdiv yoe 100 + doy
  era * 146097 + doe - 719468

/-- Reference (spec semantics): the UTC instant, in epoch seconds, denoted
by a civil wall-clock date-time carried by an ISO-8601 string whose zone
offset is `off` seconds east of UTC. -/
def instantOfCivil (y m d h mi s off : Int) : Int :=
  daysFromCivil y m d * 86400 + h * 3600 + mi * 60 + s - off

/-- datetime.fromtimestamp(t).strftime("%Y-%m-%d %H:%M:%S") where the
process local timezone is `tz` seconds east of UTC. -/
def fmtEpoch (tz t : Int) : String :=
  let u := t + tz
  let days := Int.fdiv u 86400
  let sod := u - days * 86400
  let c := civilFromDays days
  fmtDateTime c.1 c.2.1 c.2.2 (Int.fdiv sod 3600)
    (Int.fdiv (Int.fmod sod 3600) 60) (Int.fmod sod 60)

/-- Python `s.split(c)[0]`: the prefix before the first occurrence of c. -/
def takeUntilChar (c : Char) : List Char → List Char
  | [] => []
  | a :: t => if a = c then [] else a :: takeUntilChar c t

/-- Numeric value of two digit characters, if both are digits. -/
def parse2 (a b : Char) : Option Nat :=
  if a.isDigit && b.isDigit then
    some ((a.toNat - 48) * 10 + (b.toNat - 48))
  else none

/-- Numeric value of four digit characters, if all are digits. -/
def parse4 (a b c d : Char) : Option Nat :=
  match parse2 a b, parse2 c d with
  | some hi, some lo => some (hi * 100 + lo)
  | _, _ => none

/-- Gregorian leap year. -/
def isLeap (y : Nat) : Bool :=
  y % 4 = 0 && (y % 100 ≠ 0 || y % 400 = 0)

/-- Days in a month of a given year. -/
def daysInMonth (y m : Nat) : Nat :=
  if m = 2 then (if isLeap y then 29 else 28)
  else if m = 4 ∨ m = 6 ∨ m = 9 ∨ m = 11 then 30
  else 31

/-- A fractional-seconds suffix as accepted by datetime.fromisoformat
before Python 3.11: exactly 3 or 6 digits. -/
def validFrac (l : List Char) : Bool :=
  (l.length = 3 ∨ l.length = 6) && l.all Char.isDigit

/-- A negative utcoffset suffix "-HH:MM" (a "+HH:MM" suffix never reaches
the parser because _decode_timestamp already cut the string at '+'). -/
def validOffset : List Char → Bool
  | '-' :: h1 :: h2 :: ':' :: m1 :: m2 :: [] =>
    match parse2 h1 h2, parse2 m1 m2 with
    | some h, some m => h < 24 && m < 60
    | _, _ => false
  | _ => false

/-- Tail of an ISO time after the seconds field: nothing, a fractional
part, an offset, or a fractional part followed by an offset. -/
def validSecTail (l : List Char) : Bool :=
  match l with
  | [] => true
  | '.' :: rest =>
    validFrac (takeUntilChar '-' rest) &&
      (rest.drop (takeUntilChar '-' rest).length = [] ||
       validOffset (rest.drop (takeUntilChar '-' rest).length))
  | rest => validOffset rest

/-- The time-of-day part of datetime.fromisoformat: "HH:MM", optionally
":SS", optionally a fraction, optionally a "-HH:MM" offset (the formatted
output ignores fraction and offset, as strftime does). -/
def parseTime (l : List Char) : Option (Nat × Nat × Nat) :=
  match l with
  | h1 :: h2 :: ':' :: m1 :: m2 :: rest =>
    match parse2 h1 h2, parse2 m1 m2 with
    | some h, some mi =>
      if h < 24 && mi < 60 then
        match rest with
        | [] => some (h, mi, 0)
        | ':' :: s1 :: s2 :: rest2 =>
          match parse2 s1 s2 with
          | some s =>
            if s < 60 && validSecTail rest2 then some (h, mi, s) else none
          | none => none
        | rest2 => if validOffset rest2 then some (h, mi, 0) else none
      else none
    | _, _ => none
  | _ => none

/-- datetime.fromisoformat as available before Python 3.11: a "YYYY-MM-DD"
date, optionally followed by any single separator character and a time of
day.  Returns the broken-down wall-clock fields, or none when the string
does not parse (the source catches the ValueError and yields None). -/
def fromiso (l : List Char) : Option (Nat × Nat × Nat × Nat × Nat × Nat) :=
  match l with
  | y1 :: y2 :: y3 :: y4 :: '-' :: m1 :: m2 :: '-' :: d1 :: d2 :: rest =>
    match parse4 y1 y2 y3 y4, parse2 m1 m2, parse2 d1 d2 with
    | some y, some m, some d =>
      if 1 ≤ m && m ≤ 12 && 1 ≤ d && d ≤ daysInMonth y m then
        match rest with
        | [] => some (y, m, d, 0, 0, 0)
        | _sep :: timePart =>
          match parseTime timePart with
          | some t => some (y, m, d, t.1, t.2.1, t.2.2)
          | none => none
      else none
    | _, _, _ => none
  | _ => none

/-- Python int(s) on a string with no '-' in it: strip whitespace, allow a
leading '+', then a nonempty run of digits. -/
def parsePyInt (l : List Char) : Option Int :=
  let t := pyStrip l
  let t := match t with
    | c :: r => if c = '+' then r else c :: r
    | [] => []
  if isDigitL t then
    some (Int.ofNat (t.foldl (fun acc c => acc * 10 + (c.toNat - 48)) 0))
  else none

/-- A value fed to _decode_timestamp: a number, a string, or Python None. -/
inductive TSValue
  | num (n : Int)
  | str (s : String)
  | null
deriving DecidableEq, Repr

/-- The numeric branch of _decode_timestamp: values beyond 4102444800
(2100-01-01 in seconds) are treated as epoch milliseconds and divided by
1000, then rendered through fromtimestamp in the local timezone `tz`. -/
def decodeNum (tz t0 : Int) : String :=
  let t := if 4102444800 < t0 then Int.fdiv t0 1000 else t0
  fmtEpoch tz t

/-- DigilAPIClient._decode_timestamp.  A string containing 'T' or '-' is
handled as ISO: it is cut at the first '+' and at the first 'Z' (stripping
the zone suffix without converting), parsed with fromisoformat and
reformatted; other strings are converted with int() and, like numeric
input, decoded as epoch seconds or milliseconds; any parse failure is
caught and yields None. -/
def decode_timestamp (tz : Int) (v : TSValue) : Option String :=
  match v with
  | .null => none
  | .str s =>
    if s.data.contains 'T' || s.data.contains '-' then
      let ts_clean := takeUntilChar 'Z' (takeUntilChar '+' s.data)
      match fromiso ts_clean with
      | some c => some (fmtDateTime c.1 c.2.1 c.2.2.1 c.2.2.2.1
                          c.2.2.2.2.1 c.2.2.2.2.2)
      | none => none
    else
      match parsePyInt s.data with
      | some n => some (decodeNum tz n)
      | none => none
  | .num n => some (decodeNum tz n)

/-- Python str.upper() (ASCII mapping, modelled on the char list). -/
def pyUpper (s : String) : String := String.mk (s.data.map Char.toUpper)

/-- One entry of the "diags" dict of an API response: an alarm value plus
optional timestamps (timestamps modelled as epoch-millisecond integers). -/
structure DiagEntry where
  value : Option Bool := none
  timestamp : Option Int := none
  receivedOn : Option Int := none
deriving DecidableEq, Repr

/-- One entry of the "measures" dict: a numeric value plus timestamps. -/
structure MeasureEntry where
  value : Option Int := none
  timestamp : Option Int := none
  receivedOn : Option Int := none
deriving DecidableEq, Repr

/-- The JSON body handed to _parse_diagnostics: the top-level status and
identity strings, the diags and measures dicts (associative lists), and
the top-level timestamp fields. -/
structure ApiData where
  status : Option String := none
  vendor : Option String := none
  typology : Option String := none
  diags : List (String × DiagEntry) := []
  measures : List (String × MeasureEntry) := []
  lastUpdate : Option Int := none
  receivedOn : Option Int := none
  timestamp : Option Int := none
deriving DecidableEq, Repr

/-- Python `diags.get(k, {}).get("value")`. -/
def diagValue (diags : List (String × DiagEntry)) (k : String) : Option Bool :=
  (((diags.lookup k).getD {}) : DiagEntry).value

/-- Python `measures.get(k, {}).get("value")`. -/
def measureValue (measures : List (String × MeasureEntry)) (k : String) :
    Option Int :=
  (((measures.lookup k).getD {}) : MeasureEntry).value

/-- Python `a or b` on optional timestamps: a zero or missing left operand
falls through to the right one. -/
def pyOrInt (a b : Option Int) : Option Int :=
  match a with
  | some t => if t = 0 then b else some t
  | none => b

/-- The `if ts and (latest_timestamp is None or ts > latest_timestamp)`
update of the latest-timestamp scan (a falsy ts, i.e. 0, is skipped). -/
def considerTs (acc : Option Int) (ts : Option Int) : Option Int :=
  match ts with
  | none => acc
  | some t =>
    if t = 0 then acc
    else match acc with
      | none => some t
      | some l => if l < t then some t else acc

/-- The dict returned by _parse_diagnostics. -/
structure ParsedDiag where
  battery_ok : Option Bool := none
  door_open : Option Bool := none
  lte_ok : Option Bool := none
  soc_percent : Option Int := none
  soh_percent : Option Int := none
  lte_signal_dbm : Option Int := none
  channel : Option String := none
  status : Option String := none
  vendor : Option String := none
  typology : Option String := none
  api_timestamp : Option String := none
deriving DecidableEq, Repr

/-- DigilAPIClient._parse_diagnostics.  Note the connectivity line of the
source: `status = data.get("status", "").upper()` followed by
`result["lte_ok"] = status == "CONNECTED"`, which always stores a boolean
— an absent status yields False, never None.  Battery and door alarms are
only stored when their diag entries are present, so they default to
unknown; the latest timestamp is scanned over measures then diags, with
the top-level fields as fallback, and decoded with _decode_timestamp. -/
def parse_diagnostics (tz : Int) (data : ApiData) : ParsedDiag :=
  let statusU := pyUpper (data.status.getD "")
  let lte_ok : Option Bool := some (statusU == "CONNECTED")
  let latest0 : Option Int :=
    data.measures.foldl
      (fun acc p => considerTs acc (pyOrInt p.2.timestamp p.2.receivedOn)) none
  let latest1 : Option Int :=
    data.diags.foldl
      (fun acc p => considerTs acc (pyOrInt p.2.timestamp p.2.receivedOn)) latest0
  let latest : Option Int :=
    match latest1 with
    | some t => some t
    | none => pyOrInt (pyOrInt data.lastUpdate data.receivedOn) data.timestamp
  let api_timestamp : Option String :=
    match latest with
    | some t => if t = 0 then none else decode_timestamp tz (.num t)
    | none => none
  let battery_ok0 : Option Bool :=
    match diagValue data.diags "ALG_Digil2_Alm_Low_Batt" with
    | some b => some (!b)
    | none => none
  let battery_ok : Option Bool :=
    match battery_ok0 with
    | some v => some v
    | none =>
      match diagValue data.diags "ALG_Digil2_Warn_Low_Batt" with
      | some w => some (!w)
      | none => none
  let door_open : Option Bool := diagValue data.diags "ALG_Digil2_Alm_Open_Door"
  let soc_percent := measureValue data.measures "SENS_Digil2_BatteryLevel_Percent"
  let soh_percent := measureValue data.measures "SENS_Digil2_BatteryState_Percent"
  let lte_signal0 := measureValue data.measures "SENS_Digil2_LtePowerSignal"
  let channel :=
    (measureValue data.measures "SENS_Digil2_Channel").map toString
  let lte_signal_dbm :=
    match lte_signal0 with
    | some v => some v
    | none => measureValue data.measures "SENS_Digil2_NBIoTPowerSignal"
  { battery_ok := battery_ok, door_open := door_open, lte_ok := lte_ok,
    soc_percent := soc_percent, soh_percent := soh_percent,
    lte_signal_dbm := lte_signal_dbm, channel := channel,
    status := data.status, vendor := data.vendor, typology := data.typology,
    api_timestamp := api_timestamp }

/-- What get_device_diagnostics hands back to main.py: the parsed dict, an
`{"error": ...}` dict (non-2xx response or exception), or None (no OAuth
token). -/
inductive ApiOutcome
  | parsed (p : ParsedDiag)
  | apiError (msg : String)
  | noToken
deriving DecidableEq, Repr

/-- The per-device assignment block of main.py's _run_api_checks: an
`{"error": ...}` dict is truthy, so its absent keys overwrite every fused
fact with None; a None result (no token) assigns nothing. -/
def apply_api_result (d : DeviceInfo) (r : ApiOutcome) : DeviceInfo :=
  match r with
  | .parsed p =>
    { d with battery_ok := p.battery_ok, door_open := p.door_open,
             lte_ok := p.lte_ok, soc_percent := p.soc_percent,
             soh_percent := p.soh_percent,
             lte_signal_dbm := p.lte_signal_dbm, channel := p.channel }
  | .apiError _ =>
    { d with battery_ok := none, door_open := none, lte_ok := none,
             soc_percent := none, soh_percent := none,
             lte_signal_dbm := none, channel := none }
  | .noToken => d

end DigilAPIClient

namespace MongoDBChecker

/-- The MongoCheckResult dataclass of mongodb_checker.py, with its source
defaults: has_data_24h starts False (not None) and checked starts False. -/
structure MongoCheckResult where
  device_id : String
  has_data_24h : Bool := false
  last_timestamp_ms : Option Int := none
  error : String := ""
  checked : Bool := false
deriving DecidableEq, Repr

/-- What the 24h aggregation inside check_device can do: the lazy connect
fails, the query returns a row (with an optional timestamp field), the
query returns no rows, or the query raises. -/
inductive MongoQueryOutcome
  | connectFail (msg : String)
  | rows (ts : Option Int)
  | noRows
  | queryExc (msg : String)
deriving DecidableEq, Repr

/-- MongoDBChecker.check_device.  On a connect failure or a query
exception only the error note is set, so has_data_24h keeps its False
default and checked stays False; a row sets has_data_24h/checked True and
stores a truthy timestamp; an empty result sets has_data_24h False with
checked True. -/
def check_device (device_id : String) (q : MongoQueryOutcome) :
    MongoCheckResult :=
  match q with
  | .connectFail msg => { device_id := device_id, error := msg }
  | .rows ts =>
    { device_id := device_id, has_data_24h := true, checked := true,
      last_timestamp_ms :=
        match ts with
        | some t => if t = 0 then none else some t
        | none => none }
  | .noRows => { device_id := device_id, has_data_24h := false, checked := true }
  | .queryExc msg => { device_id := device_id, error := msg.take 150 }

/-- The per-device assignment block of main.py's _run_mongodb_checks loop:
device.mongodb_has_data takes result.has_data_24h unconditionally (a bool,
so the device fact is always confirmed after the loop), the checked flag
and timestamp are copied, and a nonempty error is recorded as a note. -/
def apply_mongo_result (d : DeviceInfo) (r : MongoCheckResult) : DeviceInfo :=
  { d with mongodb_has_data := some r.has_data_24h,
           mongodb_checked := some r.checked,
           mongodb_last_timestamp := r.last_timestamp_ms,
           mongodb_error :=
             if r.error ≠ "" then some r.error else d.mongodb_error }

/-- How _run_mongodb_checks starts: the SSH tunnel fails, the MongoDB
connection fails, or both succeed and the per-device loop runs. -/
inductive MongoBatchSetup
  | tunnelFail (msg : String)
  | connectFail (msg : String)
  | ok
deriving DecidableEq, Repr

/-- main.py _run_mongodb_checks.  If the tunnel or the connection fails,
every device only gets an error note — all persistence facts stay unknown;
otherwise each device is checked in turn and the results are applied. -/
def run_mongodb_checks (setup : MongoBatchSetup)
    (queries : Nat → MongoQueryOutcome) (devices : List DeviceInfo) :
    List DeviceInfo :=
  match setup with
  | .tunnelFail msg =>
    devices.map (fun d => { d with mongodb_error := some ("Tunnel SSH fallito: " ++ msg) })
  | .connectFail msg =>
    devices.map (fun d =>
      { d with mongodb_error := some ("Connessione MongoDB fallita: " ++ msg) })
  | .ok =>
    devices.mapIdx (fun i d =>
      apply_mongo_result d (check_device d.device_id (queries i)))

end MongoDBChecker

section StripLemmas

variable (p : Char → Bool)

theorem dropWhile_dropWhile (l : List Char) :
    (l.dropWhile p).dropWhile p = l.dropWhile p := by
  induction l with
  | nil => rfl
  | cons a t ih =>
    by_cases h : p a
    · simp [List.dropWhile_cons, h, ih]
    · simp [List.dropWhile_cons, h]

theorem dropWhile_head_not : ∀ {l : List Char} {a : Char} {t : List Char},
    l.dropWhile p = a :: t → p a = false := by
  intro l
  induction l with
  | nil => intro a t h; simp [List.dropWhile] at h
  | cons b r ih =>
    intro a t h
    by_cases hb : p b
    · rw [List.dropWhile_cons, if_pos hb] at h
      exact ih h
    · rw [List.dropWhile_cons, if_neg hb] at h
      cases h
      simpa using hb

theorem dropWhile_eq_self_of_head {a : Char} (t : List Char)
    (h : p a = false) : (a :: t).dropWhile p = a :: t := by
  simp [List.dropWhile_cons, h]

theorem dropWhile_suffix_ex (l : List Char) :
    ∃ pre, pre ++ l.dropWhile p = l := by
  induction l with
  | nil => exact ⟨[], rfl⟩
  | cons a t ih =>
    by_cases h : p a
    · obtain ⟨pre, hp⟩ := ih
      exact ⟨a :: pre, by simp [List.dropWhile_cons, h, hp]⟩
    · exact ⟨[], by simp [List.dropWhile_cons, h]⟩

theorem dropWhile_all_not (l : List Char) (h : ∀ c ∈ l, p c = false) :
    l.dropWhile p = l := by
  cases l with
  | nil => rfl
  | cons a t => exact dropWhile_eq_self_of_head p t (h a (by simp))

end StripLemmas

theorem pyStrip_dropWhile (l : List Char) :
    (pyStrip l).dropWhile isPySpace = pyStrip l :=
  dropWhile_dropWhile isPySpace _

theorem pyStrip_rev_dropWhile (l : List Char) :
    (pyStrip l).reverse.dropWhile isPySpace = (pyStrip l).reverse := by
  cases h : (pyStrip l).reverse with
  | nil => simp
  | cons a t =>
    obtain ⟨pre, hpre⟩ :=
      dropWhile_suffix_ex isPySpace ((l.reverse.dropWhile isPySpace).reverse)
    have hL : pre ++ pyStrip l = (l.reverse.dropWhile isPySpace).reverse :=
      hpre
    have hr : l.reverse.dropWhile isPySpace = a :: (t ++ pre.reverse) := by
      have h2 : (pre ++ pyStrip l).reverse = l.reverse.dropWhile isPySpace := by
        rw [hL, List.reverse_reverse]
      rw [← h2, List.reverse_append, h, List.cons_append]
    have hpa : isPySpace a = false := dropWhile_head_not isPySpace hr
    exact dropWhile_eq_self_of_head isPySpace t hpa

theorem pyStrip_idem (l : List Char) : pyStrip (pyStrip l) = pyStrip l := by
  show ((pyStrip l).reverse.dropWhile isPySpace).reverse.dropWhile isPySpace
      = pyStrip l
  rw [pyStrip_rev_dropWhile, List.reverse_reverse, pyStrip_dropWhile]

theorem pyStrip_of_no_space (l : List Char)
    (h : ∀ c ∈ l, isPySpace c = false) : pyStrip l = l := by
  show (l.reverse.dropWhile isPySpace).reverse.dropWhile isPySpace = l
  rw [dropWhile_all_not isPySpace l.reverse
        (fun c hc => h c (List.mem_reverse.mp hc)),
      List.reverse_reverse, dropWhile_all_not isPySpace l h]

theorem isPySpace_of_isDigit (c : Char) (h : c.isDigit = true) :
    isPySpace c = false := by
  unfold isPySpace
  split_ifs with a1 a2 a3 a4 a5 a6
  · subst a1; exact absurd h (by decide)
  · subst a2; exact absurd h (by decide)
  · subst a3; exact absurd h (by decide)
  · subst a4; exact absurd h (by decide)
  · subst a5; exact absurd h (by decide)
  · subst a6; exact absurd h (by decide)
  · rfl


theorem normalize_chars_cases (l : List Char) :
    ((pyStrip l).contains '.' = true → normalize_ip_chars l = pyStrip l) ∧
    ((pyStrip l).contains '.' = false → isDigitL (pyStrip l) = true →
      9 ≤ (pyStrip l).length →
      startsWithL "10183224".data (pyStrip l) = true →
      normalize_ip_chars l = "10.183.224.".data ++ (pyStrip l).drop 8) ∧
    ((pyStrip l).contains '.' = false → isDigitL (pyStrip l) = true →
      9 ≤ (pyStrip l).length →
      startsWithL "10183224".data (pyStrip l) = false →
      startsWithL "1018322".data (pyStrip l) = true →
      normalize_ip_chars l = "10.183.22.".data ++ (pyStrip l).drop 7) ∧
    ((pyStrip l).contains '.' = false →
      ¬(isDigitL (pyStrip l) = true ∧ 9 ≤ (pyStrip l).length ∧
        (startsWithL "10183224".data (pyStrip l) = true ∨
         startsWithL "1018322".data (pyStrip l) = true)) →
      normalize_ip_chars l = pyStrip l) := by
  refine ⟨?_, ?_, ?_, ?_⟩
  · intro h1
    simp only [normalize_ip_chars]
    rw [if_pos h1]
  · intro h1 h2 h3 h4
    simp only [normalize_ip_chars]
    rw [if_neg (by rw [h1]; simp), if_pos (by simp [h2, h3]), if_pos h4]
  · intro h1 h2 h3 h4 h5
    simp only [normalize_ip_chars]
    rw [if_neg (by rw [h1]; simp), if_pos (by simp [h2, h3]), if_neg (by simp [h4]),
        if_pos h5]
  · intro h1 hno
    simp only [normalize_ip_chars]
    by_cases hd : (isDigitL (pyStrip l) && decide (9 ≤ (pyStrip l).length)) = true
    · have hdl := (Bool.and_eq_true _ _).mp hd
      have hdig : isDigitL (pyStrip l) = true := hdl.1
      have hlen : 9 ≤ (pyStrip l).length := by
        have := hdl.2
        exact of_decide_eq_true this
      have hs1 : startsWithL "10183224".data (pyStrip l) = false := by
        cases hs : startsWithL "10183224".data (pyStrip l) with
        | false => rfl
        | true => exact absurd ⟨hdig, hlen, Or.inl hs⟩ hno
      have hs2 : startsWithL "1018322".data (pyStrip l) = false := by
        cases hs : startsWithL "1018322".data (pyStrip l) with
        | false => rfl
        | true => exact absurd ⟨hdig, hlen, Or.inr hs⟩ hno
      rw [if_neg (by rw [h1]; simp), if_pos hd, if_neg (by simp [hs1]),
          if_neg (by simp [hs2])]
    · rw [if_neg (by rw [h1]; simp), if_neg hd]

theorem normalize_ip_chars_idem (l : List Char) :
    normalize_ip_chars (normalize_ip_chars l) = normalize_ip_chars l := by
  cases h1 : (pyStrip l).contains '.' with
  | true =>
    have e1 : normalize_ip_chars l = pyStrip l := (normalize_chars_cases l).1 h1
    rw [e1]
    have h1b : (pyStrip (pyStrip l)).contains '.' = true := by
      rw [pyStrip_idem]; exact h1
    have := (normalize_chars_cases (pyStrip l)).1 h1b
    rw [this, pyStrip_idem]
  | false =>
    by_cases hd : isDigitL (pyStrip l) = true ∧ 9 ≤ (pyStrip l).length
    · have hdig : ∀ c ∈ pyStrip l, c.isDigit = true := by
        have := hd.1
        simp only [isDigitL, Bool.and_eq_true, List.all_eq_true] at this
        exact this.2
      cases h3 : startsWithL "10183224".data (pyStrip l) with
      | true =>
        have e1 : normalize_ip_chars l = "10.183.224.".data ++ (pyStrip l).drop 8 :=
          (normalize_chars_cases l).2.1 h1 hd.1 hd.2 h3
        have hns : ∀ c ∈ "10.183.224.".data ++ (pyStrip l).drop 8,
            isPySpace c = false := by
          intro c hc
          rcases List.mem_append.mp hc with hc1 | hc2
          · fin_cases hc1 <;> rfl
          · exact isPySpace_of_isDigit c
              (hdig c (List.drop_subset 8 (pyStrip l) hc2))
        have hstrip : pyStrip ("10.183.224.".data ++ (pyStrip l).drop 8) =
            "10.183.224.".data ++ (pyStrip l).drop 8 :=
          pyStrip_of_no_space _ hns
        have hdot : (pyStrip ("10.183.224.".data ++ (pyStrip l).drop 8)).contains '.'
            = true := by
          rw [hstrip]
          exact List.elem_iff.mpr (List.mem_append.mpr (Or.inl (by decide)))
        rw [e1]
        have := (normalize_chars_cases ("10.183.224.".data ++ (pyStrip l).drop 8)).1 hdot
        rw [this, hstrip]
      | false =>
        cases h4 : startsWithL "1018322".data (pyStrip l) with
        | true =>
          have e1 : normalize_ip_chars l = "10.183.22.".data ++ (pyStrip l).drop 7 :=
            (normalize_chars_cases l).2.2.1 h1 hd.1 hd.2 h3 h4
          have hns : ∀ c ∈ "10.183.22.".data ++ (pyStrip l).drop 7,
              isPySpace c = false := by
            intro c hc
            rcases List.mem_append.mp hc with hc1 | hc2
            · fin_cases hc1 <;> rfl
            · exact isPySpace_of_isDigit c
                (hdig c (List.drop_subset 7 (pyStrip l) hc2))
          have hstrip : pyStrip ("10.183.22.".data ++ (pyStrip l).drop 7) =
              "10.183.22.".data ++ (pyStrip l).drop 7 :=
            pyStrip_of_no_space _ hns
          have hdot : (pyStrip ("10.183.22.".data ++ (pyStrip l).drop 7)).contains '.'
              = true := by
            rw [hstrip]
            exact List.elem_iff.mpr (List.mem_append.mpr (Or.inl (by decide)))
          rw [e1]
          have := (normalize_chars_cases ("10.183.22.".data ++ (pyStrip l).drop 7)).1 hdot
          rw [this, hstrip]
        | false =>
          have hno : ¬(isDigitL (pyStrip l) = true ∧ 9 ≤ (pyStrip l).length ∧
              (startsWithL "10183224".data (pyStrip l) = true ∨
               startsWithL "1018322".data (pyStrip l) = true)) := by
            rintro ⟨-, -, h5 | h5⟩
            · rw [h3] at h5; exact absurd h5 (by decide)
            · rw [h4] at h5; exact absurd h5 (by decide)
          have e1 : normalize_ip_chars l = pyStrip l :=
            (normalize_chars_cases l).2.2.2 h1 hno
          rw [e1]
          have h1b : (pyStrip (pyStrip l)).contains '.' = false := by
            rw [pyStrip_idem]; exact h1
          have hnob : ¬(isDigitL (pyStrip (pyStrip l)) = true ∧
              9 ≤ (pyStrip (pyStrip l)).length ∧
              (startsWithL "10183224".data (pyStrip (pyStrip l)) = true ∨
               startsWithL "1018322".data (pyStrip (pyStrip l)) = true)) := by
            rw [pyStrip_idem]; exact hno
          have := (normalize_chars_cases (pyStrip l)).2.2.2 h1b hnob
          rw [this, pyStrip_idem]
    · have hno : ¬(isDigitL (pyStrip l) = true ∧ 9 ≤ (pyStrip l).length ∧
          (startsWithL "10183224".data (pyStrip l) = true ∨
           startsWithL "1018322".data (pyStrip l) = true)) := by
        rintro ⟨a, b, -⟩; exact hd ⟨a, b⟩
      have e1 : normalize_ip_chars l = pyStrip l :=
        (normalize_chars_cases l).2.2.2 h1 hno
      rw [e1]
      have h1b : (pyStrip (pyStrip l)).contains '.' = false := by
        rw [pyStrip_idem]; exact h1
      have hnob : ¬(isDigitL (pyStrip (pyStrip l)) = true ∧
          9 ≤ (pyStrip (pyStrip l)).length ∧
          (startsWithL "10183224".data (pyStrip (pyStrip l)) = true ∨
           startsWithL "1018322".data (pyStrip (pyStrip l)) = true)) := by
        rw [pyStrip_idem]; exact hno
      have := (normalize_chars_cases (pyStrip l)).2.2.2 h1b hnob
      rw [this, pyStrip_idem]

/-- A record with every fused fact unknown and both reachability checks
failed, as in the all-unknown test scenario. -/
def c1_device : DeviceInfo :=
  { ping_status := ConnectionStatus.PING_FAILED,
    ssh_status := ConnectionStatus.PENDING }

/-- Claim C1 (counterexample): a record with all fused facts unknown and no
reachability success is classified "Disconnesso" by rule 4 (the
mongodb-unverified branch), not "Non classificato". -/
theorem c1_counterexample :
    c1_device.mongodb_has_data = none ∧ c1_device.lte_ok = none ∧
    c1_device.battery_ok = none ∧ c1_device.door_open = none ∧
    MalfunctionClassifier.check_ping c1_device = false ∧
    MalfunctionClassifier.check_ssh c1_device = false ∧
    MalfunctionClassifier.classify c1_device = ("Disconnesso", "Ping KO, SSH KO") ∧
    (MalfunctionClassifier.classify c1_device).1 ≠ "Non classificato" := by
  decide

/-- Claim C1 (amended): for every device record in which every fused fact
is unknown and neither the ping check nor the port check succeeded,
classify returns the category "Disconnesso" (rule 4 treats unverified
persistence data like absent data when the device is unreachable), with
the note "Ping KO, SSH KO". -/
theorem c1_all_unknown_is_disconnected (d : DeviceInfo)
    (h1 : d.mongodb_has_data = none) (h2 : d.lte_ok = none)
    (h3 : d.battery_ok = none) (h4 : d.door_open = none)
    (h5 : MalfunctionClassifier.check_ping d = false)
    (h6 : MalfunctionClassifier.check_ssh d = false) :
    MalfunctionClassifier.classify d = ("Disconnesso", "Ping KO, SSH KO") := by
  simp only [MalfunctionClassifier.classify, h1, h2, h3, h4, h5, h6]
  simp [MalfunctionClassifier.build_connectivity_note]
  decide

/-- Claim C1 (witness): the amended theorem applied to the concrete
all-unknown unreachable record. -/
theorem c1_witness :
    MalfunctionClassifier.classify c1_device = ("Disconnesso", "Ping KO, SSH KO") :=
  c1_all_unknown_is_disconnected c1_device rfl rfl rfl rfl (by decide) (by decide)

/-- Claim C4: with door-open not confirmed true and battery-ok not
confirmed false, a record whose persistence store confirms recent data is
classified "OK", and its connectivity note is empty exactly when both the
ping check and the port check were confirmed successful. -/
theorem c4_persistence_true_is_ok (d : DeviceInfo)
    (h1 : d.door_open ≠ some true) (h2 : d.battery_ok ≠ some false)
    (h3 : d.mongodb_has_data = some true) :
    (MalfunctionClassifier.classify d).1 = "OK" ∧
    ((MalfunctionClassifier.classify d).2 = "" ↔
      (MalfunctionClassifier.check_ping d = true ∧
       MalfunctionClassifier.check_ssh d = true)) := by
  cases hp : MalfunctionClassifier.check_ping d <;>
    cases hs : MalfunctionClassifier.check_ssh d <;>
      simp [MalfunctionClassifier.classify,
            MalfunctionClassifier.build_connectivity_note, h1, h2, h3, hp, hs]
  all_goals decide

/-- A record with recent persistence data but a closed management port. -/
def c4_device : DeviceInfo :=
  { ping_status := ConnectionStatus.PING_OK,
    ssh_status := ConnectionStatus.SSH_PORT_CLOSED,
    mongodb_has_data := some true }

/-- Claim C4 (witness): persistence=true with port=closed yields "OK" with
a non-empty connectivity note. -/
theorem c4_witness :
    ((MalfunctionClassifier.classify c4_device).1 = "OK" ∧
      ((MalfunctionClassifier.classify c4_device).2 = "" ↔
        (MalfunctionClassifier.check_ping c4_device = true ∧
         MalfunctionClassifier.check_ssh c4_device = true))) ∧
    (MalfunctionClassifier.classify c4_device).2 ≠ "" :=
  ⟨c4_persistence_true_is_ok c4_device (by decide) (by decide) rfl, by decide⟩

/-- Claim C8: role detection from the identifier: with at least 4
colon-delimited fields, a fourth field "15" maps to MASTER and "16" to
SLAVE regardless of the rest; otherwise the whole-string substring
fallback applies ("15" without "16" → MASTER, "16" → SLAVE, neither →
UNKNOWN). -/
theorem c8_detect_role (id : String) :
    (4 ≤ (splitOnChar ':' id.data).length →
      (splitOnChar ':' id.data).getD 3 [] = "15".data →
      detect_device_type id = DeviceType.MASTER) ∧
    (4 ≤ (splitOnChar ':' id.data).length →
      (splitOnChar ':' id.data).getD 3 [] = "16".data →
      detect_device_type id = DeviceType.SLAVE) ∧
    (¬(4 ≤ (splitOnChar ':' id.data).length ∧
        ((splitOnChar ':' id.data).getD 3 [] = "15".data ∨
         (splitOnChar ':' id.data).getD 3 [] = "16".data)) →
      ((containsSub "15".data id.data = true ∧ containsSub "16".data id.data = false →
          detect_device_type id = DeviceType.MASTER) ∧
       (containsSub "16".data id.data = true →
          detect_device_type id = DeviceType.SLAVE) ∧
       (containsSub "15".data id.data = false ∧ containsSub "16".data id.data = false →
          detect_device_type id = DeviceType.UNKNOWN))) := by
  refine ⟨fun a b => ?_, fun a b => ?_, fun a => ⟨fun bc => ?_, fun b => ?_,
          fun bc => ?_⟩⟩
  · simp only [detect_device_type]
    rw [if_pos ⟨a, b⟩]
  · have n1 : ¬(4 ≤ (splitOnChar ':' id.data).length ∧
        (splitOnChar ':' id.data).getD 3 [] = "15".data) := by
      rintro ⟨-, he⟩
      exact absurd (b.symm.trans he) (by decide)
    simp only [detect_device_type]
    rw [if_neg n1, if_pos ⟨a, b⟩]
  · have n1 : ¬(4 ≤ (splitOnChar ':' id.data).length ∧
        (splitOnChar ':' id.data).getD 3 [] = "15".data) :=
      fun ⟨x, y⟩ => a ⟨x, Or.inl y⟩
    have n2 : ¬(4 ≤ (splitOnChar ':' id.data).length ∧
        (splitOnChar ':' id.data).getD 3 [] = "16".data) :=
      fun ⟨x, y⟩ => a ⟨x, Or.inr y⟩
    simp only [detect_device_type]
    rw [if_neg n1, if_neg n2, if_pos bc]
  · have n1 : ¬(4 ≤ (splitOnChar ':' id.data).length ∧
        (splitOnChar ':' id.data).getD 3 [] = "15".data) :=
      fun ⟨x, y⟩ => a ⟨x, Or.inl y⟩
    have n2 : ¬(4 ≤ (splitOnChar ':' id.data).length ∧
        (splitOnChar ':' id.data).getD 3 [] = "16".data) :=
      fun ⟨x, y⟩ => a ⟨x, Or.inr y⟩
    by_cases hc : containsSub "15".data id.data = true ∧
        containsSub "16".data id.data = false
    · rw [b] at hc
      exact absurd hc.2 (by decide)
    · simp only [detect_device_type]
      rw [if_neg n1, if_neg n2, if_neg hc, if_pos b]
  · have n1 : ¬(4 ≤ (splitOnChar ':' id.data).length ∧
        (splitOnChar ':' id.data).getD 3 [] = "15".data) :=
      fun ⟨x, y⟩ => a ⟨x, Or.inl y⟩
    have n2 : ¬(4 ≤ (splitOnChar ':' id.data).length ∧
        (splitOnChar ':' id.data).getD 3 [] = "16".data) :=
      fun ⟨x, y⟩ => a ⟨x, Or.inr y⟩
    have n3 : ¬(containsSub "15".data id.data = true ∧
        containsSub "16".data id.data = false) := by
      rintro ⟨x, -⟩
      rw [bc.1] at x
      exact absurd x (by decide)
    have n4 : ¬(containsSub "16".data id.data = true) := by
      intro x
      rw [bc.2] at x
      exact absurd x (by decide)
    simp only [detect_device_type]
    rw [if_neg n1, if_neg n2, if_neg n3, if_neg n4]

/-- Claim C8 (witness): the role theorem applied to a master and a slave
identifier from the repository's own test list. -/
theorem c8_witness :
    detect_device_type "1:1:2:15:25:DIGIL_SR2_0103" = DeviceType.MASTER ∧
    detect_device_type "1:1:2:16:21:DIGIL_MRN_0562" = DeviceType.SLAVE :=
  ⟨(c8_detect_role "1:1:2:15:25:DIGIL_SR2_0103").1 (by decide) (by decide),
   (c8_detect_role "1:1:2:16:21:DIGIL_MRN_0562").2.1 (by decide) (by decide)⟩

/-- Claim C9 (counterexample): an input that already contains separators
is not always returned unchanged — normalize_ip strips surrounding
whitespace first. -/
theorem c9_counterexample :
    ('.' ∈ (" 10.1.2.3" : String).data) ∧
    normalize_ip " 10.1.2.3" = "10.1.2.3" ∧
    normalize_ip " 10.1.2.3" ≠ " 10.1.2.3" := by
  decide

/-- Claim C9 (amended): after trimming surrounding whitespace, a trimmed
value containing "." is returned as the trimmed value; a trimmed pure-digit
value of length at least 9 with prefix "10183224" (or else "1018322") is
reconstructed into the dotted form for that prefix; every other input is
returned as its trimmed self. -/
theorem c9_normalize_ip_cases (s : String) :
    ((pyStrip s.data).contains '.' = true →
      normalize_ip s = String.mk (pyStrip s.data)) ∧
    ((pyStrip s.data).contains '.' = false → isDigitL (pyStrip s.data) = true →
      9 ≤ (pyStrip s.data).length →
      startsWithL "10183224".data (pyStrip s.data) = true →
      normalize_ip s = String.mk ("10.183.224.".data ++ (pyStrip s.data).drop 8)) ∧
    ((pyStrip s.data).contains '.' = false → isDigitL (pyStrip s.data) = true →
      9 ≤ (pyStrip s.data).length →
      startsWithL "10183224".data (pyStrip s.data) = false →
      startsWithL "1018322".data (pyStrip s.data) = true →
      normalize_ip s = String.mk ("10.183.22.".data ++ (pyStrip s.data).drop 7)) ∧
    ((pyStrip s.data).contains '.' = false →
      ¬(isDigitL (pyStrip s.data) = true ∧ 9 ≤ (pyStrip s.data).length ∧
        (startsWithL "10183224".data (pyStrip s.data) = true ∨
         startsWithL "1018322".data (pyStrip s.data) = true)) →
      normalize_ip s = String.mk (pyStrip s.data)) := by
  obtain ⟨k1, k2, k3, k4⟩ := normalize_chars_cases s.data
  refine ⟨fun h1 => ?_, fun h1 h2 h3 h4 => ?_, fun h1 h2 h3 h4 h5 => ?_,
          fun h1 hno => ?_⟩
  · show String.mk (normalize_ip_chars s.data) = _
    rw [k1 h1]
  · show String.mk (normalize_ip_chars s.data) = _
    rw [k2 h1 h2 h3 h4]
  · show String.mk (normalize_ip_chars s.data) = _
    rw [k3 h1 h2 h3 h4 h5]
  · show String.mk (normalize_ip_chars s.data) = _
    rw [k4 h1 hno]

/-- Claim C9 (witness): a pure-digit value matching the configured prefix
is reconstructed into the expected dotted form. -/
theorem c9_witness : normalize_ip "10183224247" = "10.183.224.247" := by
  have h := (c9_normalize_ip_cases "10183224247").2.1
    (by decide) (by decide) (by decide) (by decide)
  exact h.trans (by decide)

/-- Claim C10: normalize_ip is idempotent — normalizing an
already-normalized value changes nothing. -/
theorem c10_normalize_ip_idem (s : String) :
    normalize_ip (normalize_ip s) = normalize_ip s := by
  show String.mk (normalize_ip_chars (normalize_ip_chars s.data)) =
    String.mk (normalize_ip_chars s.data)
  rw [normalize_ip_chars_idem]

/-- Claim C6: when the initial bridge connection fails, check_devices
returns one record per input device, every record carries VPN_ERROR on
both the ping and the SSH status fields plus the connection error
message, no probe command is issued, and the completion callback still
fires once. -/
theorem c6_relay_unreachable (devices : List DeviceInfo) (msg : String)
    (_h : devices ≠ []) :
    (MultiThreadChecker.check_devices_bridge_fail devices msg).results.length
      = devices.length ∧
    (∀ d ∈ (MultiThreadChecker.check_devices_bridge_fail devices msg).results,
      d.ping_status = ConnectionStatus.VPN_ERROR ∧
      d.ssh_status = ConnectionStatus.VPN_ERROR ∧
      d.error_message = msg) ∧
    (MultiThreadChecker.check_devices_bridge_fail devices msg).probeCommands = 0 ∧
    (MultiThreadChecker.check_devices_bridge_fail devices msg).completionCalls
      = 1 := by
  refine ⟨by simp [MultiThreadChecker.check_devices_bridge_fail], ?_, rfl, rfl⟩
  intro d hd
  simp only [MultiThreadChecker.check_devices_bridge_fail, List.mem_map] at hd
  obtain ⟨x, -, rfl⟩ := hd
  exact ⟨rfl, rfl, rfl⟩

/-- Claim C6 (witness): the relay-unreachable theorem on a concrete
single-device batch. -/
theorem c6_witness :
    (MultiThreadChecker.check_devices_bridge_fail
        [{ device_id := "1:1:2:15:22:DIGIL_MRN_0259" }]
        "Timeout connessione - Verifica VPN").results.length = 1 ∧
    (∀ d ∈ (MultiThreadChecker.check_devices_bridge_fail
        [{ device_id := "1:1:2:15:22:DIGIL_MRN_0259" }]
        "Timeout connessione - Verifica VPN").results,
      d.ping_status = ConnectionStatus.VPN_ERROR ∧
      d.ssh_status = ConnectionStatus.VPN_ERROR ∧
      d.error_message = "Timeout connessione - Verifica VPN") ∧
    (MultiThreadChecker.check_devices_bridge_fail
        [{ device_id := "1:1:2:15:22:DIGIL_MRN_0259" }]
        "Timeout connessione - Verifica VPN").probeCommands = 0 ∧
    (MultiThreadChecker.check_devices_bridge_fail
        [{ device_id := "1:1:2:15:22:DIGIL_MRN_0259" }]
        "Timeout connessione - Verifica VPN").completionCalls = 1 :=
  c6_relay_unreachable [{ device_id := "1:1:2:15:22:DIGIL_MRN_0259" }]
    "Timeout connessione - Verifica VPN" (by decide)

/-- Claim C2 (counterexample): a snapshot without a connectivity status is
parsed with link-connected = confirmed-false (not unknown), and a
persistence query error leaves has_data_24h at its False default, which
main.py copies onto the record as confirmed-false. -/
theorem c2_counterexample :
    (DigilAPIClient.parse_diagnostics 0 {}).lte_ok = some false ∧
    (DigilAPIClient.apply_api_result {}
        (.parsed (DigilAPIClient.parse_diagnostics 0 {}))).lte_ok = some false ∧
    (MongoDBChecker.apply_mongo_result {}
        (MongoDBChecker.check_device "1:1:2:15:22:DIGIL_MRN_0051"
          (.queryExc "boom"))).mongodb_has_data = some false ∧
    (MongoDBChecker.check_device "1:1:2:15:22:DIGIL_MRN_0051"
        (.queryExc "boom")).checked = false := by
  decide

/-- Claim C2 (amended): battery-ok and door-open stay unknown when their
diag entries are absent, and an API-level error (error dict) leaves all
API facts unknown; but link-connected is always set to the boolean
status == "CONNECTED" (confirmed-false when the status is absent), and a
persistence query error yields has-recent-data = confirmed-false with the
separate checked flag false. -/
theorem c2_fact_defaults (tz : Int) (data : DigilAPIClient.ApiData)
    (d : DeviceInfo) (m : String) :
    (DigilAPIClient.diagValue data.diags "ALG_Digil2_Alm_Low_Batt" = none →
     DigilAPIClient.diagValue data.diags "ALG_Digil2_Warn_Low_Batt" = none →
     (DigilAPIClient.parse_diagnostics tz data).battery_ok = none) ∧
    (DigilAPIClient.diagValue data.diags "ALG_Digil2_Alm_Open_Door" = none →
     (DigilAPIClient.parse_diagnostics tz data).door_open = none) ∧
    ((DigilAPIClient.parse_diagnostics tz data).lte_ok =
      some ((DigilAPIClient.pyUpper (data.status.getD "")) == "CONNECTED")) ∧
    ((DigilAPIClient.apply_api_result d (.apiError m)).battery_ok = none ∧
     (DigilAPIClient.apply_api_result d (.apiError m)).door_open = none ∧
     (DigilAPIClient.apply_api_result d (.apiError m)).lte_ok = none) ∧
    ((MongoDBChecker.apply_mongo_result d
        (MongoDBChecker.check_device d.device_id (.queryExc m))).mongodb_has_data
        = some false ∧
     (MongoDBChecker.apply_mongo_result d
        (MongoDBChecker.check_device d.device_id (.queryExc m))).mongodb_checked
        = some false) := by
  refine ⟨fun hA hW => ?_, fun hD => ?_, rfl, ⟨rfl, rfl, rfl⟩, ⟨rfl, rfl⟩⟩
  · simp [DigilAPIClient.parse_diagnostics, hA, hW]
  · simp [DigilAPIClient.parse_diagnostics, hD]

/-- Claim C2 (witness): the defaults theorem on a concrete empty snapshot
and a concrete failing query. -/
theorem c2_witness :
    (DigilAPIClient.parse_diagnostics 0 {}).battery_ok = none ∧
    (DigilAPIClient.parse_diagnostics 0 {}).door_open = none ∧
    (MongoDBChecker.apply_mongo_result {}
        (MongoDBChecker.check_device "" (.queryExc "boom"))).mongodb_has_data
        = some false := by
  have h := c2_fact_defaults 0 {} {} "boom"
  exact ⟨h.1 rfl rfl, h.2.1 rfl, h.2.2.2.2.1⟩

/-- Claim C5 (counterexample): two ISO-8601 inputs with timezone suffixes
that denote the same instant (14:25:42Z and 15:25:42+01:00) decode to
different normalized strings, because _decode_timestamp strips the zone
suffix without converting the wall-clock time; on a UTC-local machine the
corresponding epoch input disagrees with the +01:00 string as well. -/
theorem c5_counterexample :
    DigilAPIClient.instantOfCivil 2025 1 19 14 25 42 0 =
      DigilAPIClient.instantOfCivil 2025 1 19 15 25 42 3600 ∧
    DigilAPIClient.decode_timestamp 0 (.str "2025-01-19T14:25:42Z") =
      some "2025-01-19 14:25:42" ∧
    DigilAPIClient.decode_timestamp 0 (.str "2025-01-19T15:25:42+01:00") =
      some "2025-01-19 15:25:42" ∧
    DigilAPIClient.decode_timestamp 0 (.str "2025-01-19T14:25:42Z") ≠
      DigilAPIClient.decode_timestamp 0 (.str "2025-01-19T15:25:42+01:00") ∧
    DigilAPIClient.decode_timestamp 0
        (.num (DigilAPIClient.instantOfCivil 2025 1 19 15 25 42 3600)) =
      some "2025-01-19 14:25:42" := by
  decide

/-- Claim C5 (amended): epoch-second and epoch-millisecond inputs denoting
the same instant decode to the identical normalized string, millisecond
inputs being recognized by magnitude (above 4102444800, i.e. 2100-01-01 in
seconds, the value is divided by 1000). -/
theorem c5_epoch_ms_agree (tz s ms : Int) (h1 : ms = 1000 * s)
    (h2 : s ≤ 4102444800) (h3 : 4102444800 < ms) :
    DigilAPIClient.decode_timestamp tz (.num ms) =
      DigilAPIClient.decode_timestamp tz (.num s) := by
  simp only [DigilAPIClient.decode_timestamp, DigilAPIClient.decodeNum]
  rw [if_pos h3, if_neg (by omega), h1, Int.mul_fdiv_cancel_left _ (by norm_num)]

/-- Claim C5 (witness): the agreement theorem at the repository's own test
timestamps 1737297942000 ms and 1737297942 s. -/
theorem c5_witness :
    DigilAPIClient.decode_timestamp 0 (.num 1737297942000) =
      DigilAPIClient.decode_timestamp 0 (.num 1737297942) :=
  c5_epoch_ms_agree 0 1737297942 1737297942000 (by norm_num) (by norm_num)
    (by norm_num)

theorem pingLoop_step_ok (maxR : Nat) (res : Nat → DeviceChecker.SingleResult)
    (dur : Nat → Nat) (a e s : Nat)
    (h : (res (a + 1)).status = ConnectionStatus.PING_OK) :
    DeviceChecker.pingLoop maxR res dur a e s =
      ⟨ConnectionStatus.PING_OK, (res (a + 1)).time, a + 1, s, ""⟩ := by
  rw [DeviceChecker.pingLoop, dif_pos h]

theorem pingLoop_step_timeout (maxR : Nat)
    (res : Nat → DeviceChecker.SingleResult) (dur : Nat → Nat) (a e s : Nat)
    (h1 : (res (a + 1)).status ≠ ConnectionStatus.PING_OK) (h2 : maxR ≤ e) :
    DeviceChecker.pingLoop maxR res dur a e s =
      ⟨ConnectionStatus.PING_FAILED, none, a + 1, s,
        "Ping fallito dopo " ++ toString (a + 1) ++ " tentativi (" ++
          toString (maxR / 60) ++ " min). " ++ (res (a + 1)).err⟩ := by
  rw [DeviceChecker.pingLoop, dif_neg h1, dif_pos h2]

theorem pingLoop_step_next (maxR : Nat)
    (res : Nat → DeviceChecker.SingleResult) (dur : Nat → Nat) (a e s : Nat)
    (h1 : (res (a + 1)).status ≠ ConnectionStatus.PING_OK)
    (h2 : ¬ maxR ≤ e) :
    DeviceChecker.pingLoop maxR res dur a e s =
      DeviceChecker.pingLoop maxR res dur (a + 1)
        (e + dur (a + 1) + DeviceChecker.PING_RETRY_INTERVAL) (s + 1) := by
  rw [DeviceChecker.pingLoop, dif_neg h1, dif_neg h2]

theorem pingLoop_fail_aux (maxR : Nat) (res : Nat → DeviceChecker.SingleResult)
    (dur : Nat → Nat)
    (hfail : ∀ j, 1 ≤ j → (res j).status ≠ ConnectionStatus.PING_OK) :
    ∀ K a, maxR - DeviceChecker.sumDur dur a ≤ K →
      (DeviceChecker.pingLoop maxR res dur a (DeviceChecker.sumDur dur a) a).status
          = ConnectionStatus.PING_FAILED ∧
      (DeviceChecker.pingLoop maxR res dur a (DeviceChecker.sumDur dur a) a).time
          = none ∧
      a + 1 ≤ (DeviceChecker.pingLoop maxR res dur a (DeviceChecker.sumDur dur a) a).attempts ∧
      maxR ≤ DeviceChecker.sumDur dur
        ((DeviceChecker.pingLoop maxR res dur a (DeviceChecker.sumDur dur a) a).attempts - 1) ∧
      (∀ m, a ≤ m →
        m + 1 < (DeviceChecker.pingLoop maxR res dur a (DeviceChecker.sumDur dur a) a).attempts →
        DeviceChecker.sumDur dur m < maxR) ∧
      (DeviceChecker.pingLoop maxR res dur a (DeviceChecker.sumDur dur a) a).sleeps
          = (DeviceChecker.pingLoop maxR res dur a (DeviceChecker.sumDur dur a) a).attempts - 1 ∧
      (DeviceChecker.pingLoop maxR res dur a (DeviceChecker.sumDur dur a) a).msg
          = "Ping fallito dopo " ++
            toString (DeviceChecker.pingLoop maxR res dur a (DeviceChecker.sumDur dur a) a).attempts ++
            " tentativi (" ++ toString (maxR / 60) ++ " min). " ++
            (res (DeviceChecker.pingLoop maxR res dur a (DeviceChecker.sumDur dur a) a).attempts).err := by
  intro K
  induction K with
  | zero =>
    intro a hK
    have ht : maxR ≤ DeviceChecker.sumDur dur a := by omega
    rw [pingLoop_step_timeout maxR res dur a _ a (hfail (a + 1) (by omega)) ht]
    refine ⟨rfl, rfl, Nat.le_refl _, ?_, ?_, rfl, rfl⟩
    · show maxR ≤ DeviceChecker.sumDur dur (a + 1 - 1)
      simpa using ht
    · intro m hm hlt
      have hlt2 : m + 1 < a + 1 := hlt
      omega
  | succ K ih =>
    intro a hK
    by_cases ht : maxR ≤ DeviceChecker.sumDur dur a
    · rw [pingLoop_step_timeout maxR res dur a _ a (hfail (a + 1) (by omega)) ht]
      refine ⟨rfl, rfl, Nat.le_refl _, ?_, ?_, rfl, rfl⟩
      · show maxR ≤ DeviceChecker.sumDur dur (a + 1 - 1)
        simpa using ht
      · intro m hm hlt
        have hlt2 : m + 1 < a + 1 := hlt
        omega
    · rw [pingLoop_step_next maxR res dur a _ a (hfail (a + 1) (by omega)) ht]
      have e1 : DeviceChecker.pingLoop maxR res dur (a + 1)
          (DeviceChecker.sumDur dur a + dur (a + 1) +
            DeviceChecker.PING_RETRY_INTERVAL) (a + 1) =
          DeviceChecker.pingLoop maxR res dur (a + 1)
            (DeviceChecker.sumDur dur (a + 1)) (a + 1) := rfl
      rw [e1]
      have hsum : DeviceChecker.sumDur dur (a + 1) =
          DeviceChecker.sumDur dur a + dur (a + 1) + 10 := by
        simp [DeviceChecker.sumDur, DeviceChecker.PING_RETRY_INTERVAL]
      obtain ⟨p1, p2, p3, p4, p5, p6, p7⟩ := ih (a + 1) (by omega)
      refine ⟨p1, p2, by omega, p4, ?_, p6, p7⟩
      intro m hm hlt
      rcases Nat.eq_or_lt_of_le hm with he | hgt
      · subst he
        omega
      · exact p5 m (by omega) hlt

theorem pingLoop_success_aux (maxR : Nat)
    (res : Nat → DeviceChecker.SingleResult) (dur : Nat → Nat) (k : Nat)
    (hk : (res (k + 1)).status = ConnectionStatus.PING_OK) :
    ∀ n a, k - a = n → a ≤ k →
      (∀ j, a + 1 ≤ j → j ≤ k → (res j).status ≠ ConnectionStatus.PING_OK) →
      (∀ m, a ≤ m → m < k → DeviceChecker.sumDur dur m < maxR) →
      DeviceChecker.pingLoop maxR res dur a (DeviceChecker.sumDur dur a) a =
        ⟨ConnectionStatus.PING_OK, (res (k + 1)).time, k + 1, k, ""⟩ := by
  intro n
  induction n with
  | zero =>
    intro a hn ha _ _
    have : a = k := by omega
    subst this
    rw [pingLoop_step_ok maxR res dur a _ a hk]
  | succ n ih =>
    intro a hn ha hfails hbud
    have halt : a < k := by omega
    have hne : (res (a + 1)).status ≠ ConnectionStatus.PING_OK :=
      hfails (a + 1) (by omega) (by omega)
    have hlt : ¬ maxR ≤ DeviceChecker.sumDur dur a := by
      have := hbud a (by omega) halt
      omega
    rw [pingLoop_step_next maxR res dur a _ a hne hlt]
    have e1 : DeviceChecker.pingLoop maxR res dur (a + 1)
        (DeviceChecker.sumDur dur a + dur (a + 1) +
          DeviceChecker.PING_RETRY_INTERVAL) (a + 1) =
        DeviceChecker.pingLoop maxR res dur (a + 1)
          (DeviceChecker.sumDur dur (a + 1)) (a + 1) := rfl
    rw [e1]
    exact ih (a + 1) (by omega) (by omega)
      (fun j hj hjk => hfails j (by omega) hjk)
      (fun m hm hmk => hbud m (by omega) hmk)

/-- Claim C7: the ping retry loop of DeviceChecker.check_ping terminates,
uses the 300 s budget for a MASTER device and the 1200 s budget otherwise;
it returns PING_OK carrying the parsed round-trip time on the first
attempt that succeeds, with no further attempts or sleeps; and when no
attempt ever succeeds it returns PING_FAILED on the first attempt whose
pre-attempt elapsed time reached the budget, with one fewer sleep than
attempts and a message carrying the attempt count and the budget in
minutes. -/
theorem c7_check_ping_spec (dt : DeviceType)
    (res : Nat → DeviceChecker.SingleResult) (dur : Nat → Nat) :
    DeviceChecker.MASTER_PING_RETRY_TIMEOUT = 300 ∧
    DeviceChecker.SLAVE_PING_RETRY_TIMEOUT = 1200 ∧
    (∀ k, (res (k + 1)).status = ConnectionStatus.PING_OK →
      (∀ j, 1 ≤ j → j ≤ k → (res j).status ≠ ConnectionStatus.PING_OK) →
      (∀ m, m < k → DeviceChecker.sumDur dur m <
        (if dt = DeviceType.MASTER then DeviceChecker.MASTER_PING_RETRY_TIMEOUT
         else DeviceChecker.SLAVE_PING_RETRY_TIMEOUT)) →
      DeviceChecker.check_ping dt res dur =
        ⟨ConnectionStatus.PING_OK, (res (k + 1)).time, k + 1, k, ""⟩) ∧
    ((∀ j, 1 ≤ j → (res j).status ≠ ConnectionStatus.PING_OK) →
      (DeviceChecker.check_ping dt res dur).status = ConnectionStatus.PING_FAILED ∧
      (DeviceChecker.check_ping dt res dur).time = none ∧
      1 ≤ (DeviceChecker.check_ping dt res dur).attempts ∧
      (if dt = DeviceType.MASTER then DeviceChecker.MASTER_PING_RETRY_TIMEOUT
       else DeviceChecker.SLAVE_PING_RETRY_TIMEOUT) ≤
        DeviceChecker.sumDur dur ((DeviceChecker.check_ping dt res dur).attempts - 1) ∧
      (∀ m, m + 1 < (DeviceChecker.check_ping dt res dur).attempts →
        DeviceChecker.sumDur dur m <
          (if dt = DeviceType.MASTER then DeviceChecker.MASTER_PING_RETRY_TIMEOUT
           else DeviceChecker.SLAVE_PING_RETRY_TIMEOUT)) ∧
      (DeviceChecker.check_ping dt res dur).sleeps =
        (DeviceChecker.check_ping dt res dur).attempts - 1 ∧
      (DeviceChecker.check_ping dt res dur).msg =
        "Ping fallito dopo " ++
          toString (DeviceChecker.check_ping dt res dur).attempts ++
          " tentativi (" ++
          toString ((if dt = DeviceType.MASTER
              then DeviceChecker.MASTER_PING_RETRY_TIMEOUT
              else DeviceChecker.SLAVE_PING_RETRY_TIMEOUT) / 60) ++
          " min). " ++ (res (DeviceChecker.check_ping dt res dur).attempts).err) := by
  refine ⟨rfl, rfl, ?_, ?_⟩
  · intro k hk hfails hbud
    show DeviceChecker.pingLoop _ res dur 0 0 0 = _
    have e0 : DeviceChecker.pingLoop
        (if dt = DeviceType.MASTER then DeviceChecker.MASTER_PING_RETRY_TIMEOUT
         else DeviceChecker.SLAVE_PING_RETRY_TIMEOUT) res dur 0 0 0 =
        DeviceChecker.pingLoop
          (if dt = DeviceType.MASTER then DeviceChecker.MASTER_PING_RETRY_TIMEOUT
           else DeviceChecker.SLAVE_PING_RETRY_TIMEOUT) res dur 0
          (DeviceChecker.sumDur dur 0) 0 := rfl
    rw [e0]
    exact pingLoop_success_aux _ res dur k hk k 0 (by omega) (by omega)
      (fun j hj hjk => hfails j hj hjk)
      (fun m _ hmk => hbud m hmk)
  · intro hfail
    show (DeviceChecker.pingLoop _ res dur 0 0 0).status = _ ∧ _
    have e0 : DeviceChecker.pingLoop
        (if dt = DeviceType.MASTER then DeviceChecker.MASTER_PING_RETRY_TIMEOUT
         else DeviceChecker.SLAVE_PING_RETRY_TIMEOUT) res dur 0 0 0 =
        DeviceChecker.pingLoop
          (if dt = DeviceType.MASTER then DeviceChecker.MASTER_PING_RETRY_TIMEOUT
           else DeviceChecker.SLAVE_PING_RETRY_TIMEOUT) res dur 0
          (DeviceChecker.sumDur dur 0) 0 := rfl
    rw [DeviceChecker.check_ping, e0]
    obtain ⟨p1, p2, p3, p4, p5, p6, p7⟩ :=
      pingLoop_fail_aux
        (if dt = DeviceType.MASTER then DeviceChecker.MASTER_PING_RETRY_TIMEOUT
         else DeviceChecker.SLAVE_PING_RETRY_TIMEOUT) res dur hfail
        (if dt = DeviceType.MASTER then DeviceChecker.MASTER_PING_RETRY_TIMEOUT
         else DeviceChecker.SLAVE_PING_RETRY_TIMEOUT) 0
        (Nat.sub_le _ _)
    exact ⟨p1, p2, by omega, p4, fun m hm => p5 m (by omega) hm, p6, p7⟩

/-- A concrete attempt stream that first fails, then succeeds at attempt 2
with a parsed 12 ms round-trip time. -/
def c7_res : Nat → DeviceChecker.SingleResult := fun j =>
  if j = 2 then ⟨ConnectionStatus.PING_OK, some 12, ""⟩
  else ⟨ConnectionStatus.PING_FAILED, none, "Nessuna risposta al ping"⟩

/-- Zero-duration attempts for the C7 witness. -/
def c7_dur : Nat → Nat := fun _ => 0

/-- Claim C7 (witness): with a success on attempt 2 inside the budget, the
MASTER-budget loop stops at attempt 2 with PING_OK, the 12 ms time, and a
single sleep. -/
theorem c7_witness :
    DeviceChecker.check_ping DeviceType.MASTER c7_res c7_dur =
      ⟨ConnectionStatus.PING_OK, some 12, 2, 1, ""⟩ :=
  (c7_check_ping_spec DeviceType.MASTER c7_res c7_dur).2.2.1 1 (by decide)
    (fun j h1 h2 => by
      have : j = 1 := by omega
      subst this
      decide)
    (fun m hm => by
      have : m = 0 := by omega
      subst this
      decide)

/-- Run invariant of the thread-pool batch model: the snapshot taken at
cancellation is a prefix of the current results, skipped and queued
devices never appear in the results, and the completion callback has not
fired during the event loop. -/
def BatchInvariant (s : MultiThreadChecker.BatchState) : Prop :=
  (∀ rs, s.resultsAtCancel = some rs → ∃ t, rs ++ t = s.results) ∧
  (∀ i, s.status i = MultiThreadChecker.WStatus.skipped → i ∉ s.results) ∧
  (∀ i, s.status i = MultiThreadChecker.WStatus.queued → i ∉ s.results) ∧
  s.completionCalls = 0

theorem stepBatch_inv (s : MultiThreadChecker.BatchState)
    (e : MultiThreadChecker.BatchEvent) (h : BatchInvariant s) :
    BatchInvariant (MultiThreadChecker.stepBatch s e) := by
  obtain ⟨h1, h2, h3, h4⟩ := h
  cases e with
  | start i =>
    simp only [MultiThreadChecker.stepBatch]
    by_cases hq : s.status i = MultiThreadChecker.WStatus.queued
    · rw [if_pos hq]
      by_cases hb : s.flagged
      · rw [if_pos hb]
        refine ⟨h1, ?_, ?_, h4⟩
        · intro j hj
          by_cases hij : j = i
          · subst hij
            exact h3 j hq
          · simp only [if_neg hij] at hj
            exact h2 j hj
        · intro j hj
          by_cases hij : j = i
          · subst hij
            simp at hj
          · simp only [if_neg hij] at hj
            exact h3 j hj
      · rw [if_neg hb]
        refine ⟨h1, ?_, ?_, h4⟩
        · intro j hj
          by_cases hij : j = i
          · subst hij
            simp at hj
          · simp only [if_neg hij] at hj
            exact h2 j hj
        · intro j hj
          by_cases hij : j = i
          · subst hij
            simp at hj
          · simp only [if_neg hij] at hj
            exact h3 j hj
    · rw [if_neg hq]
      exact ⟨h1, h2, h3, h4⟩
  | finish i =>
    simp only [MultiThreadChecker.stepBatch]
    by_cases hr : s.status i = MultiThreadChecker.WStatus.running
    · rw [if_pos hr]
      refine ⟨?_, ?_, ?_, h4⟩
      · intro rs hrs
        obtain ⟨t, ht⟩ := h1 rs hrs
        exact ⟨t ++ [i], by rw [← List.append_assoc, ht]⟩
      · intro j hj
        by_cases hij : j = i
        · subst hij
          simp at hj
        · simp only [if_neg hij] at hj
          intro hmem
          rcases List.mem_append.mp hmem with hm | hm
          · exact h2 j hj hm
          · simp at hm
            exact hij hm
      · intro j hj
        by_cases hij : j = i
        · subst hij
          simp at hj
        · simp only [if_neg hij] at hj
          intro hmem
          rcases List.mem_append.mp hmem with hm | hm
          · exact h3 j hj hm
          · simp at hm
            exact hij hm
    · rw [if_neg hr]
      exact ⟨h1, h2, h3, h4⟩
  | cancel =>
    simp only [MultiThreadChecker.stepBatch]
    refine ⟨?_, h2, h3, h4⟩
    intro rs hrs
    cases hc : s.resultsAtCancel with
    | some r =>
      rw [hc] at hrs
      simp at hrs
      subst hrs
      exact h1 r hc
    | none =>
      rw [hc] at hrs
      simp at hrs
      subst hrs
      exact ⟨[], List.append_nil _⟩

theorem foldl_batch_inv (evs : List MultiThreadChecker.BatchEvent) :
    ∀ s, BatchInvariant s →
      BatchInvariant (evs.foldl MultiThreadChecker.stepBatch s) := by
  induction evs with
  | nil => exact fun s h => h
  | cons e t ih =>
    intro s h
    exact ih _ (stepBatch_inv s e h)

/-- A schedule with two devices: both workers start, device 0 completes,
the stop flag is raised (K = 1 completed), and the in-flight worker for
device 1 still completes afterwards. -/
def c3_events : List MultiThreadChecker.BatchEvent :=
  [.start 0, .start 1, .finish 0, .cancel, .finish 1]

/-- Claim C3 (counterexample): cancelling after exactly K = 1 of N = 2
devices completed does not yield exactly K records — the in-flight device
still completes, its per-device completion callback fires after the
cancellation, and the final result set has 2 records. -/
theorem c3_counterexample :
    (MultiThreadChecker.runBatch 2 c3_events).resultsAtCancel = some [0] ∧
    (MultiThreadChecker.runBatch 2 c3_events).results = [0, 1] ∧
    (MultiThreadChecker.runBatch 2 c3_events).results.length ≠ 1 ∧
    (MultiThreadChecker.runBatch 2 c3_events).callbacksAfterCancel = 1 ∧
    (MultiThreadChecker.runBatch 2 c3_events).completionCalls = 1 := by
  decide

/-- Claim C3 (amended): over every schedule, the K records collected when
the flag is raised are preserved as a prefix of the returned result set
(so at least K records are returned); a worker that observes the flag
before starting contributes no record; in-flight workers may still append
records and fire callbacks after cancellation; and the completion
callback fires exactly once. -/
theorem c3_cancellation (n : Nat) (evs : List MultiThreadChecker.BatchEvent) :
    (∀ rs, (MultiThreadChecker.runBatch n evs).resultsAtCancel = some rs →
      (∃ t, rs ++ t = (MultiThreadChecker.runBatch n evs).results) ∧
      rs.length ≤ (MultiThreadChecker.runBatch n evs).results.length) ∧
    (∀ i, (MultiThreadChecker.runBatch n evs).status i =
        MultiThreadChecker.WStatus.skipped →
      i ∉ (MultiThreadChecker.runBatch n evs).results) ∧
    (MultiThreadChecker.runBatch n evs).completionCalls = 1 := by
  have base : BatchInvariant (MultiThreadChecker.initBatch n) := by
    refine ⟨?_, ?_, ?_, rfl⟩
    · intro rs h
      simp [MultiThreadChecker.initBatch] at h
    · intro i h
      simp [MultiThreadChecker.initBatch] at h
    · intro i _
      simp [MultiThreadChecker.initBatch]
  obtain ⟨h1, h2, h3, h4⟩ := foldl_batch_inv evs (MultiThreadChecker.initBatch n) base
  refine ⟨?_, ?_, ?_⟩
  · intro rs hrs
    obtain ⟨t, ht⟩ := h1 rs hrs
    refine ⟨⟨t, ht⟩, ?_⟩
    calc rs.length ≤ rs.length + t.length := Nat.le_add_right _ _
    _ = (rs ++ t).length := (List.length_append rs t).symm
    _ = (evs.foldl MultiThreadChecker.stepBatch
          (MultiThreadChecker.initBatch n)).results.length := by rw [ht]
    _ = (MultiThreadChecker.runBatch n evs).results.length := rfl
  · exact h2
  · show (evs.foldl MultiThreadChecker.stepBatch
      (MultiThreadChecker.initBatch n)).completionCalls + 1 = 1
    rw [h4]

/-- Claim C3 (witness): the amended theorem on the concrete two-device
schedule: the K = 1 record collected at cancellation is a prefix of the
final results and the completion callback fired once. -/
theorem c3_witness :
    (∃ t, [0] ++ t = (MultiThreadChecker.runBatch 2 c3_events).results) ∧
    (MultiThreadChecker.runBatch 2 c3_events).completionCalls = 1 :=
  ⟨((c3_cancellation 2 c3_events).1 [0] (by decide)).1,
   (c3_cancellation 2 c3_events).2.2⟩
